import Mathlib

/-!
Verification of the error-reporting pipeline (src/lib/error-reporter.ts) and the
AI request client (src/lib/ai.ts) of the appily-expo-go-template repository.

The TypeScript sources are shallowly embedded: every function below is a direct
translation of the corresponding source function.  JavaScript runtime behaviour
that the sources rely on (string `split`, regular-expression `match` with greedy
backtracking, truthiness of strings and numbers, the `||` default operator) is
embedded by small executable definitions whose semantics follow the JavaScript
specification on the fragment the sources use.  Strings are modelled as lists of
characters (JavaScript indexes UTF-16 code units; all inputs considered here are
plain ASCII, where the two notions coincide).
-/

/-! ### JavaScript string splitting

`s.split(sep)` for a single-character separator: the list of maximal segments
between occurrences of the separator.  Used by `parseStackTrace`
(`stack.split('\n')`) and `analyzeImage` (`imageBase64.split(',')`). -/

def splitChar (sep : Char) : List Char → List (List Char)
  | [] => [[]]
  | c :: cs =>
    match splitChar sep cs with
    | [] => [[]]
    | t :: ts => if c = sep then [] :: t :: ts else (c :: t) :: ts

def splitLines (s : String) : List String :=
  (splitChar '\n' s.data).map String.mk

/-! ### JavaScript regular-expression matching

The three patterns of `parseStackTrace` use only literals, character classes
(`\s`, `\S`, `\d`, `[^:]`, `[^:\s]`) and the greedy `+` quantifier, with capture
groups wrapped around single quantified classes.  `RItem` is this pattern
fragment; `matchItemsF` is a backtracking matcher with the exact JavaScript
semantics on it: greedy `+` (longest repetition first, backtracking down to one
repetition), a match may end before the end of the string, and `searchFrom`
scans candidate start positions from the left, as `String.prototype.match` does
for a non-global regular expression. -/

inductive RItem where
  | lit : Char → RItem
  | plus : (Char → Bool) → Bool → RItem

/-- Backtracking loop for a greedy `+` item: try repetition length k, k-1, ...,
1 against the continuation `rest`; record the consumed chunk as a capture when
the item is a capture group. -/
def tryAll (rest : List Char → Option (List (List Char))) (cap : Bool)
    (s : List Char) : Nat → Option (List (List Char))
  | 0 => none
  | k + 1 =>
    match rest (s.drop (k + 1)) with
    | some caps => some (if cap then s.take (k + 1) :: caps else caps)
    | none => tryAll rest cap s k

/-- Match a pattern (list of items) against a prefix of `s`, returning the
capture-group contents on success.  Fuel-indexed so that the definition is a
plain structural recursion; each step consumes one item, so any fuel larger
than the item count is exact (see `runPattern`). -/
def matchItemsF (fuel : Nat) : List RItem → List Char → Option (List (List Char)) :=
  Nat.rec (motive := fun _ => List RItem → List Char → Option (List (List Char)))
    (fun _ _ => none)
    (fun _ ih items s =>
      match items, s with
      | [], _ => some []
      | RItem.lit _ :: _, [] => none
      | RItem.lit c :: ps, d :: s2 => if d = c then ih ps s2 else none
      | RItem.plus cls cap :: ps, s3 => tryAll (ih ps) cap s3 (s3.takeWhile cls).length)
    fuel

def runPattern (items : List RItem) (s : List Char) : Option (List (List Char)) :=
  matchItemsF (items.length + 1) items s

/-- Leftmost-match search: try the pattern at every start position from the
left, as JavaScript `match` does. -/
def searchFrom (items : List RItem) : List Char → Option (List (List Char))
  | [] => runPattern items []
  | c :: s => match runPattern items (c :: s) with
    | some caps => some caps
    | none => searchFrom items s

/-- JavaScript `\s` on the ASCII range (the inputs contain no Unicode spaces). -/
def jsWS (c : Char) : Bool :=
  c = ' ' || c = '\t' || c = '\n' || c = '\r' || c = '\x0b' || c = '\x0c'

def jsDigit (c : Char) : Bool := '0' ≤ c && c ≤ '9'

def nonColon (c : Char) : Bool := c != ':'

def nonColonNonWS (c : Char) : Bool := c != ':' && !(jsWS c)

/-- Source pattern 1 of `parseStackTrace`. -/
def stackPattern1 : List RItem :=
  [RItem.lit 'a', RItem.lit 't', RItem.plus jsWS false,
   RItem.plus (fun c => !(jsWS c)) false, RItem.plus jsWS false, RItem.lit '(',
   RItem.plus nonColon true, RItem.lit ':', RItem.plus jsDigit true,
   RItem.lit ':', RItem.plus jsDigit true, RItem.lit ')']

/-- Source pattern 2 of `parseStackTrace`. -/
def stackPattern2 : List RItem :=
  [RItem.lit 'a', RItem.lit 't', RItem.plus jsWS false,
   RItem.plus nonColon true, RItem.lit ':', RItem.plus jsDigit true,
   RItem.lit ':', RItem.plus jsDigit true]

/-- Source pattern 3 of `parseStackTrace`. -/
def stackPattern3 : List RItem :=
  [RItem.plus nonColonNonWS true, RItem.lit ':', RItem.plus jsDigit true,
   RItem.lit ':', RItem.plus jsDigit true]

def stackPatterns : List (List RItem) := [stackPattern1, stackPattern2, stackPattern3]

/-- JavaScript `parseInt(str, 10)` on a nonempty all-digit string. -/
def parseDigits (cs : List Char) : Nat :=
  cs.foldl (fun a c => a * 10 + (c.toNat - '0'.toNat)) 0

/-- The inner loop body of `parseStackTrace`: match one line of the stack text
against the three patterns in order; on the first pattern that matches, return
`(match[1], parseInt(match[2], 10), parseInt(match[3], 10))`. -/
def matchLine (line : String) : Option (String × Nat × Nat) :=
  match stackPatterns.findSome? (fun p => searchFrom p line.data) with
  | some (f :: l :: c :: _) => some (String.mk f, parseDigits l, parseDigits c)
  | _ => none

structure ParsedLoc where
  filename : Option String
  lineNumber : Option Nat
  columnNumber : Option Nat
deriving DecidableEq

/-- The outer loop of `parseStackTrace`: scan the lines in order and return the
result of the first line on which some pattern matches. -/
def scanLines : List String → Option (String × Nat × Nat)
  | [] => none
  | l :: ls =>
    match matchLine l with
    | some r => some r
    | none => scanLines ls

/-- Function `parseStackTrace` from src/lib/error-reporter.ts.  `if (!stack) return {}`
covers both an absent stack and the falsy empty string. -/
def parseStackTrace (stack : Option String) : ParsedLoc :=
  match stack with
  | none => ⟨none, none, none⟩
  | some s =>
    if s = "" then ⟨none, none, none⟩
    else
      match scanLines (splitLines s) with
      | some (f, l, c) => ⟨some f, some l, some c⟩
      | none => ⟨none, none, none⟩

example : parseStackTrace (some "at Foo (bar.tsx:12:3)") = ⟨some "bar.tsx", some 12, some 3⟩ := by decide
example : matchLine "ERROR" = none := by decide
example : parseStackTrace (some "ERROR\nat Foo (bar.tsx:12:3)") = ⟨some "bar.tsx", some 12, some 3⟩ := by decide
example : splitLines "a\nb" = ["a", "b"] := by decide

/-! ### The error reporter (src/lib/error-reporter.ts)

`reportError` mutates module-level dedup state (`lastErrorHash`,
`lastErrorTime`), mutates its argument object in place, performs at most one
`fetch`, and catches every failure of that `fetch`.  The embedding makes each
effect explicit:

* the configuration read from `Constants.expoConfig` and `Platform` is a
  `ReporterConfig` argument;
* the dedup state is threaded as a `DedupState` argument and returned;
* `Date.now()` is the `now` argument (milliseconds);
* the outcome of `await fetch(...)` is the `fetchResult` argument: `Except.ok
  status` for a received HTTP response, `Except.error ()` for a rejected
  promise (network failure);
* the returned `ReportResult` records the argument object as the caller sees it
  after the call (`errorOut`, since the source mutates `error` in place), the
  new dedup state, the POST payload if one was issued (`request = none` means
  no network call), and `outcome`, which is `Except.error` exactly when the
  call would throw or reject to its caller. -/

inductive ErrorType where
  | js_error
  | react_error
  | unhandled_promise
deriving DecidableEq

/-- The `RuntimeError` record of src/lib/error-reporter.ts.  Optional fields
are `Option`; an empty string stored in an optional string field is distinct
from an absent one, matching JavaScript (both are falsy). -/
structure RuntimeError where
  message : String
  stack : Option String
  componentStack : Option String
  filename : Option String
  lineNumber : Option Nat
  columnNumber : Option Nat
  errorType : ErrorType
  timestamp : String
deriving DecidableEq

structure DeviceInfo where
  platform : String
  version : String
deriving DecidableEq

/-- The `ErrorReportPayload` sent as the JSON body of the POST. -/
structure ErrorReportPayload where
  projectId : String
  error : RuntimeError
  deviceInfo : DeviceInfo
deriving DecidableEq

structure ReporterConfig where
  projectId : String
  apiEndpoint : String
  platform : String
  version : String

structure DedupState where
  lastErrorHash : String
  lastErrorTime : Nat
deriving DecidableEq

def DEDUPE_WINDOW_MS : Nat := 5000

/-- JavaScript truthiness of an optional string: `undefined` and `""` are
falsy, every other string is truthy. -/
def jsTruthyS : Option String → Bool
  | none => false
  | some s => s != ""

/-- JavaScript `x || d` for an optional string `x` (used by `hashError`, where
the source defaults `error.filename` to the string unknown): the default is
taken when the value is absent or the empty string. -/
def jsOrStr (o : Option String) (d : String) : String :=
  match o with
  | some s => if s = "" then d else s
  | none => d

/-- Function `hashError` from src/lib/error-reporter.ts:
a template string of message, filename defaulted to `unknown`, and line number
defaulted to `0` (an absent line number and the falsy line number `0`
template-print identically). -/
def hashError (e : RuntimeError) : String :=
  e.message ++ "-" ++ jsOrStr e.filename "unknown" ++ "-" ++ toString (e.lineNumber.getD 0)

/-- The stack-parsing enrichment step of `reportError`
(`if (!error.filename && error.stack) { ... }`): when the filename is falsy and
the stack is truthy, the three location fields are assigned the parse result
(possibly `none`, as assigning `undefined` in the source). -/
def enrichError (e : RuntimeError) : RuntimeError :=
  if jsTruthyS e.filename = false ∧ jsTruthyS e.stack = true then
    { e with filename := (parseStackTrace e.stack).filename,
             lineNumber := (parseStackTrace e.stack).lineNumber,
             columnNumber := (parseStackTrace e.stack).columnNumber }
  else e

/-- One truncation of `reportError`: a field strictly longer than 5000
characters is cut, by `error.stack.substring(0, 5000)`, to its first 5000
characters, and the truncation marker is appended. -/
def truncateField (s : String) : String :=
  if s.data.length > 5000 then String.mk (s.data.take 5000) ++ "\n... (truncated)" else s

/-- The truncation step of `reportError`: `stack` and `componentStack` are each
independently truncated in place.  (The source guards on truthiness and length;
for `none` and `""` the guarded assignment and `Option.map truncateField`
agree.) -/
def truncateStacks (e : RuntimeError) : RuntimeError :=
  { e with stack := e.stack.map truncateField,
           componentStack := e.componentStack.map truncateField }

/-- The body of the `try` block: `await fetch(...)` either rejects (network
failure) or yields a response whose non-ok status is only logged.  The
`Except.error` value is the exception that the `catch` clause then receives. -/
def attemptSend (fetchResult : Except Unit Nat) : Except String Unit :=
  match fetchResult with
  | Except.error _ => Except.error "fetch rejected"
  | Except.ok _ => Except.ok ()

/-- The `catch (e) { console.warn(...) }` clause: every exception of the send
is swallowed and the function returns normally. -/
def tryCatchSwallow (r : Except String Unit) : Except String Unit :=
  match r with
  | Except.error _ => Except.ok ()
  | Except.ok _ => Except.ok ()

structure ReportResult where
  errorOut : RuntimeError
  state : DedupState
  request : Option ErrorReportPayload
  outcome : Except String Unit

/-- Function `reportError` from src/lib/error-reporter.ts, step for step:
1. no-op when `projectId` is not configured (empty string is the default);
2. enrichment of the argument object from the stack trace;
3. dedup: drop when the hash equals the stored hash and less than 5000 ms have
   elapsed (JavaScript computes a possibly negative difference; with `Nat`
   truncated subtraction the comparison decides identically);
4. otherwise store the new hash and time, truncate both stack fields in place,
   and POST the payload, swallowing any failure. -/
def reportError (cfg : ReporterConfig) (st : DedupState) (e : RuntimeError)
    (now : Nat) (fetchResult : Except Unit Nat) : ReportResult :=
  if cfg.projectId = "" then
    ⟨e, st, none, Except.ok ()⟩
  else if hashError (enrichError e) = st.lastErrorHash ∧
      now - st.lastErrorTime < DEDUPE_WINDOW_MS then
    ⟨enrichError e, st, none, Except.ok ()⟩
  else
    ⟨truncateStacks (enrichError e),
     ⟨hashError (enrichError e), now⟩,
     some ⟨cfg.projectId, truncateStacks (enrichError e), ⟨cfg.platform, cfg.version⟩⟩,
     tryCatchSwallow (attemptSend fetchResult)⟩

/-- Function `isErrorReportingEnabled` from src/lib/error-reporter.ts. -/
def isErrorReportingEnabled (cfg : ReporterConfig) : Bool :=
  cfg.projectId != ""

/-! ### The AI request client (src/lib/ai.ts)

Each operation is embedded as a function of the configuration, its arguments,
and a fetch oracle mapping the request it would issue to the parsed JSON
response (`APIResponse`).  The result is a pair: the value the promise settles
with (`Except.error m` models `throw new Error(m)` / a rejected promise), and
the list of network requests the call issued (empty or a singleton).  A
rejection of `fetch` itself or of `response.json()` propagates to the caller in
the source and is outside the oracle; the claims under verification concern the
configuration guard and the envelope handling, which the oracle covers. -/

structure AIConfig where
  projectId : String
  apiUrl : String

structure APIError where
  code : String
  message : String
deriving DecidableEq

/-- The `{success, data?, error?}` envelope of every AI API response. -/
structure APIResponse (α : Type) where
  success : Bool
  data : Option α
  error : Option APIError
deriving DecidableEq

structure GenerateTextData where
  text : String
  remainingRequests : Nat
deriving DecidableEq

structure GenerateTextResult where
  text : String
  remainingRequests : Nat
deriving DecidableEq

/-- The JSON body (and URL) of the `generateText` POST; `temperature: 0.7` is
the exact rational the JSON literal denotes. -/
structure GenerateTextRequest where
  url : String
  projectId : String
  prompt : String
  systemPrompt : Option String
  maxTokens : Nat
  temperature : ℚ
deriving DecidableEq

/-- Envelope handling of `generateText`: `if (!data.success || !data.data)`
throws a new Error carrying `data.error?.message` defaulted, by `||`, to the
fixed message; otherwise the fields are unwrapped from `data.data`. -/
def generateTextUnwrap (resp : APIResponse GenerateTextData) :
    Except String GenerateTextResult :=
  match resp.success, resp.data with
  | true, some d => Except.ok ⟨d.text, d.remainingRequests⟩
  | _, _ => Except.error (jsOrStr (resp.error.map APIError.message) "AI text generation failed")

/-- Function `generateText` from src/lib/ai.ts. -/
def generateText (cfg : AIConfig) (prompt : String) (systemPrompt : Option String)
    (oracle : GenerateTextRequest → APIResponse GenerateTextData) :
    Except String GenerateTextResult × List GenerateTextRequest :=
  if cfg.projectId = "" then
    (Except.error "AI not configured - project ID missing", [])
  else
    (generateTextUnwrap (oracle ⟨cfg.apiUrl ++ "/api/ai/generate", cfg.projectId,
        prompt, systemPrompt, 1024, 7 / 10⟩),
     [⟨cfg.apiUrl ++ "/api/ai/generate", cfg.projectId, prompt, systemPrompt, 1024, 7 / 10⟩])

structure AnalyzeImageData where
  analysis : String
  remainingRequests : Nat
deriving DecidableEq

structure AnalyzeImageResult where
  analysis : String
  remainingRequests : Nat
deriving DecidableEq

structure VisionRequest where
  url : String
  projectId : String
  imageBase64 : String
  prompt : String
  maxTokens : Nat
deriving DecidableEq

structure VisionUrlRequest where
  url : String
  projectId : String
  imageUrl : String
  prompt : String
deriving DecidableEq

/-- The data-URL stripping step of `analyzeImage`:
`imageBase64.includes(',') ? imageBase64.split(',')[1] : imageBase64`.
When the string contains a comma, `split` yields at least two segments, so the
index-1 access (modelled with a default) is the segment between the first comma
and the next comma or the end. -/
def cleanBase64 (s : String) : String :=
  if ',' ∈ s.data then String.mk ((splitChar ',' s.data).getD 1 []) else s

/-- Envelope handling of `analyzeImage` and `analyzeImageUrl` (identical in the
source, including the default message). -/
def analyzeImageUnwrap (resp : APIResponse AnalyzeImageData) :
    Except String AnalyzeImageResult :=
  match resp.success, resp.data with
  | true, some d => Except.ok ⟨d.analysis, d.remainingRequests⟩
  | _, _ => Except.error (jsOrStr (resp.error.map APIError.message) "AI image analysis failed")

/-- Function `analyzeImage` from src/lib/ai.ts. -/
def analyzeImage (cfg : AIConfig) (imageBase64 : String) (prompt : String)
    (oracle : VisionRequest → APIResponse AnalyzeImageData) :
    Except String AnalyzeImageResult × List VisionRequest :=
  if cfg.projectId = "" then
    (Except.error "AI not configured - project ID missing", [])
  else
    (analyzeImageUnwrap (oracle ⟨cfg.apiUrl ++ "/api/ai/vision", cfg.projectId,
        cleanBase64 imageBase64, prompt, 1024⟩),
     [⟨cfg.apiUrl ++ "/api/ai/vision", cfg.projectId, cleanBase64 imageBase64, prompt, 1024⟩])

/-- Function `analyzeImageUrl` from src/lib/ai.ts. -/
def analyzeImageUrl (cfg : AIConfig) (imageUrl : String) (prompt : String)
    (oracle : VisionUrlRequest → APIResponse AnalyzeImageData) :
    Except String AnalyzeImageResult × List VisionUrlRequest :=
  if cfg.projectId = "" then
    (Except.error "AI not configured - project ID missing", [])
  else
    (analyzeImageUnwrap (oracle ⟨cfg.apiUrl ++ "/api/ai/vision", cfg.projectId,
        imageUrl, prompt⟩),
     [⟨cfg.apiUrl ++ "/api/ai/vision", cfg.projectId, imageUrl, prompt⟩])

structure QuotaData where
  remainingRequests : Nat
  maxRequests : Nat
  periodEnd : String
deriving DecidableEq

structure AIQuotaResult where
  remaining : Nat
  max : Nat
  periodEnd : String
deriving DecidableEq

/-- Envelope handling of `checkAIQuota`, including the field renaming of the
result. -/
def checkAIQuotaUnwrap (resp : APIResponse QuotaData) : Except String AIQuotaResult :=
  match resp.success, resp.data with
  | true, some d => Except.ok ⟨d.remainingRequests, d.maxRequests, d.periodEnd⟩
  | _, _ => Except.error (jsOrStr (resp.error.map APIError.message) "Failed to check AI quota")

/-- Function `checkAIQuota` from src/lib/ai.ts; the GET request is its URL. -/
def checkAIQuota (cfg : AIConfig)
    (oracle : String → APIResponse QuotaData) :
    Except String AIQuotaResult × List String :=
  if cfg.projectId = "" then
    (Except.error "AI not configured - project ID missing", [])
  else
    (checkAIQuotaUnwrap (oracle (cfg.apiUrl ++ "/api/ai/usage?projectId=" ++ cfg.projectId)),
     [cfg.apiUrl ++ "/api/ai/usage?projectId=" ++ cfg.projectId])

/-- Function `isAIEnabled` from src/lib/ai.ts. -/
def isAIEnabled (cfg : AIConfig) : Bool :=
  cfg.projectId != ""

/-! ### generateImage (specified but not present under src/) -/

structure GenImageOptions where
  aspect : Option String
  resolution : Option String

structure GenImageData where
  imageBase64 : String
  mimeType : String
  remainingRequests : Nat
deriving DecidableEq

structure GenImageRequest where
  url : String
  projectId : String
  prompt : String
  aspect : String
  resolution : String
deriving DecidableEq

structure GenerateImageResult where
  imageBase64 : String
  remainingRequests : Nat
deriving DecidableEq

/-- Modelled from the spec: envelope handling of `generateImage`, as the spec
prescribes for every operation, with the data-URL assembly of the result
(`imageBase64` prefixed `data:{mimeType};base64,`). -/
def generateImageUnwrap (resp : APIResponse GenImageData) :
    Except String GenerateImageResult :=
  match resp.success, resp.data with
  | true, some d =>
    Except.ok ⟨"data:" ++ d.mimeType ++ ";base64," ++ d.imageBase64, d.remainingRequests⟩
  | _, _ => Except.error (jsOrStr (resp.error.map APIError.message) "AI image generation failed")

/-- Modelled from the spec: the spec (sections 4.2, 6, 8) documents a
`generateImage` operation of the AI client, but no implementation of it exists
under src/ (src/lib/ai.ts stops at `checkAIQuota`).  Following the spec words:
prompt required; option `aspect ratio` defaulting to `1:1`; option `resolution`
defaulting to `1K`; POST to `{apiUrl}/api/ai/generate-image`; the same project
identifier guard and `{success, data, error}` envelope as the other operations;
the successful result carries `imageBase64` as a data URL prefixed
`data:{mimeType};base64,` and `remainingRequests`. -/
def generateImage (cfg : AIConfig) (prompt : String) (opts : GenImageOptions)
    (oracle : GenImageRequest → APIResponse GenImageData) :
    Except String GenerateImageResult × List GenImageRequest :=
  if cfg.projectId = "" then
    (Except.error "AI not configured - project ID missing", [])
  else
    (generateImageUnwrap (oracle ⟨cfg.apiUrl ++ "/api/ai/generate-image", cfg.projectId,
        prompt, opts.aspect.getD "1:1", opts.resolution.getD "1K"⟩),
     [⟨cfg.apiUrl ++ "/api/ai/generate-image", cfg.projectId, prompt,
       opts.aspect.getD "1:1", opts.resolution.getD "1K"⟩])

/-! ### Concrete configurations and records used by witnesses and
counterexamples -/

def cfgR : ReporterConfig := ⟨"proj", "https://appily.dev", "ios", "18"⟩

def cfgBadR : ReporterConfig := ⟨"", "https://appily.dev", "ios", "18"⟩

def st0 : DedupState := ⟨"", 0⟩

def eW1 : RuntimeError :=
  ⟨"boom", none, none, some "f.tsx", some 3, none, ErrorType.js_error, "t"⟩

def eC1a : RuntimeError :=
  ⟨"m", some "at Foo (a.tsx:1:2)", none, none, none, none, ErrorType.js_error, "t"⟩

def eC1b : RuntimeError :=
  ⟨"m", some "at Foo (b.tsx:1:2)", none, none, none, none, ErrorType.js_error, "t"⟩

def eC3 : RuntimeError :=
  ⟨"boom", some "ERROR\nat Foo (bar.tsx:12:3)", none, none, none, none, ErrorType.js_error, "t"⟩

def eC3w : RuntimeError :=
  ⟨"boom", some "at Foo (bar.tsx:12:3)", none, none, none, none, ErrorType.js_error, "t"⟩

def eC10a : RuntimeError :=
  ⟨"m", none, none, some "f.tsx", some 0, none, ErrorType.js_error, "t"⟩

def eC10b : RuntimeError :=
  ⟨"m", none, none, some "f.tsx", none, none, ErrorType.js_error, "t"⟩

def eC10c : RuntimeError :=
  ⟨"m", some "at Foo (a.tsx:7:2)", none, none, some 0, none, ErrorType.js_error, "t"⟩

def eC10d : RuntimeError :=
  ⟨"m", some "at Foo (b.tsx:9:4)", none, none, none, none, ErrorType.js_error, "t"⟩

def cfgA : AIConfig := ⟨"proj", "https://www.appily.dev"⟩

def cfgBadA : AIConfig := ⟨"", "https://www.appily.dev"⟩

/-! ### Helper lemmas about the reporter -/

theorem enrichError_stack (e : RuntimeError) :
    (enrichError e).stack = e.stack ∧ (enrichError e).componentStack = e.componentStack := by
  unfold enrichError
  split_ifs <;> exact ⟨rfl, rfl⟩

theorem reportError_delivered_config (cfg : ReporterConfig) (st : DedupState)
    (e : RuntimeError) (now : Nat) (f : Except Unit Nat)
    (h : ((reportError cfg st e now f).request).isSome = true) :
    ¬ cfg.projectId = "" := by
  intro hp
  unfold reportError at h
  rw [if_pos hp] at h
  simp at h

theorem reportError_state_of_delivered (cfg : ReporterConfig) (st : DedupState)
    (e : RuntimeError) (now : Nat) (f : Except Unit Nat)
    (h : ((reportError cfg st e now f).request).isSome = true) :
    (reportError cfg st e now f).state = ⟨hashError (enrichError e), now⟩ := by
  unfold reportError at h ⊢
  split_ifs at h ⊢ <;> simp_all

theorem reportError_dropped (cfg : ReporterConfig) (st : DedupState)
    (e : RuntimeError) (now : Nat) (f : Except Unit Nat)
    (hp : ¬ cfg.projectId = "")
    (hh : hashError (enrichError e) = st.lastErrorHash)
    (ht : now - st.lastErrorTime < DEDUPE_WINDOW_MS) :
    (reportError cfg st e now f).request = none := by
  unfold reportError
  rw [if_neg hp, if_pos ⟨hh, ht⟩]

theorem reportError_delivers (cfg : ReporterConfig) (st : DedupState)
    (e : RuntimeError) (now : Nat) (f : Except Unit Nat)
    (hp : ¬ cfg.projectId = "")
    (hnd : ¬ (hashError (enrichError e) = st.lastErrorHash ∧
      now - st.lastErrorTime < DEDUPE_WINDOW_MS)) :
    (reportError cfg st e now f).request =
      some ⟨cfg.projectId, truncateStacks (enrichError e), ⟨cfg.platform, cfg.version⟩⟩ := by
  unfold reportError
  rw [if_neg hp, if_neg hnd]

theorem reportError_errorOut_loc (cfg : ReporterConfig) (st : DedupState)
    (e : RuntimeError) (now : Nat) (f : Except Unit Nat)
    (hp : ¬ cfg.projectId = "") :
    (reportError cfg st e now f).errorOut.filename = (enrichError e).filename ∧
    (reportError cfg st e now f).errorOut.lineNumber = (enrichError e).lineNumber ∧
    (reportError cfg st e now f).errorOut.columnNumber = (enrichError e).columnNumber := by
  unfold reportError
  rw [if_neg hp]
  split_ifs <;> exact ⟨rfl, rfl, rfl⟩

/-! ### Claims C1, C2, C9, C10 -/

/-- Claim C1, counterexample to the claim as stated: the two records `eC1a` and
`eC1b` have identical `message`, `filename` and `lineNumber` fields, the second
call comes 1000 ms after the first, yet both calls produce a network POST,
because the dedup key is computed only after the stack-trace enrichment has
overwritten `filename`/`lineNumber` with values parsed from the two different
stacks. -/
theorem reportError_prefield_dedup_cex :
    eC1a.message = eC1b.message ∧ eC1a.filename = eC1b.filename ∧
    eC1a.lineNumber = eC1b.lineNumber ∧
    ((reportError cfgR st0 eC1a 0 (Except.ok 200)).request).isSome = true ∧
    ((reportError cfgR (reportError cfgR st0 eC1a 0 (Except.ok 200)).state eC1b 1000
      (Except.ok 200)).request).isSome = true := by
  decide

/-- Claim C1 (amended): for two calls with a project identifier configured
whose records have equal dedup keys after stack-trace enrichment (in
particular, identical message, filename and lineNumber after enrichment), if
the first call is delivered, a second call less than 5000 ms later is dropped
without a network call, and a second call 5000 ms or more later is delivered
again. -/
theorem reportError_dedupe_window (cfg : ReporterConfig) (st : DedupState)
    (e1 e2 : RuntimeError) (t1 t2 : Nat) (f1 f2 : Except Unit Nat)
    (hh : hashError (enrichError e2) = hashError (enrichError e1))
    (h1 : ((reportError cfg st e1 t1 f1).request).isSome = true) :
    (t2 - t1 < DEDUPE_WINDOW_MS →
      (reportError cfg (reportError cfg st e1 t1 f1).state e2 t2 f2).request = none) ∧
    (DEDUPE_WINDOW_MS ≤ t2 - t1 →
      ((reportError cfg (reportError cfg st e1 t1 f1).state e2 t2 f2).request).isSome = true) := by
  have hp := reportError_delivered_config cfg st e1 t1 f1 h1
  have hst := reportError_state_of_delivered cfg st e1 t1 f1 h1
  rw [hst]
  constructor
  · intro ht
    exact reportError_dropped cfg _ e2 t2 f2 hp hh ht
  · intro ht
    rw [reportError_delivers cfg _ e2 t2 f2 hp ?hnd]
    · rfl
    · rintro ⟨_, hlt⟩
      exact absurd hlt (not_lt.mpr ht)

theorem reportError_dedupe_window_witness :
    ((reportError cfgR st0 eW1 0 (Except.ok 200)).request).isSome = true ∧
    (reportError cfgR (reportError cfgR st0 eW1 0 (Except.ok 200)).state eW1 1000
      (Except.ok 200)).request = none := by
  refine ⟨by decide, ?_⟩
  exact (reportError_dedupe_window cfgR st0 eW1 eW1 0 1000 (Except.ok 200) (Except.ok 200)
    rfl (by decide)).1 (by decide)

/-- Claim C2: `reportError` never throws or rejects to its caller, for every
record, dedup state, clock value and fetch outcome (a rejected fetch included);
and with no project identifier configured it is a silent no-op: no request, no
state change, no mutation of the argument. -/
theorem reportError_never_throws (cfg : ReporterConfig) (st : DedupState)
    (e : RuntimeError) (now : Nat) (f : Except Unit Nat) :
    (reportError cfg st e now f).outcome = Except.ok () ∧
    (cfg.projectId = "" →
      (reportError cfg st e now f).request = none ∧
      (reportError cfg st e now f).state = st ∧
      (reportError cfg st e now f).errorOut = e) := by
  constructor
  · unfold reportError
    split_ifs
    · rfl
    · rfl
    · cases f <;> rfl
  · intro hp
    unfold reportError
    rw [if_pos hp]
    exact ⟨rfl, rfl, rfl⟩

theorem reportError_never_throws_witness :
    (reportError cfgBadR st0 eW1 3 (Except.error ())).outcome = Except.ok () ∧
    (reportError cfgBadR st0 eW1 3 (Except.error ())).request = none := by
  have h := reportError_never_throws cfgBadR st0 eW1 3 (Except.error ())
  exact ⟨h.1, (h.2 rfl).1⟩

/-- Claim C9: for a delivered call, the caller-visible record after the call is
the enriched and truncated record (the source mutates its argument in place),
and the POST payload embeds exactly that record, not a fresh copy of the
original. -/
theorem reportError_mutates_argument (cfg : ReporterConfig) (st : DedupState)
    (e : RuntimeError) (now : Nat) (f : Except Unit Nat)
    (h : ((reportError cfg st e now f).request).isSome = true) :
    (reportError cfg st e now f).errorOut = truncateStacks (enrichError e) ∧
    (reportError cfg st e now f).request =
      some ⟨cfg.projectId, (reportError cfg st e now f).errorOut,
        ⟨cfg.platform, cfg.version⟩⟩ ∧
    (reportError cfg st e now f).errorOut.stack = e.stack.map truncateField := by
  have hp := reportError_delivered_config cfg st e now f h
  unfold reportError at h ⊢
  rw [if_neg hp] at h ⊢
  split_ifs at h ⊢ with hnd
  · simp at h
  · refine ⟨rfl, rfl, ?_⟩
    show (enrichError e).stack.map truncateField = e.stack.map truncateField
    rw [(enrichError_stack e).1]

theorem reportError_mutates_argument_witness :
    (reportError cfgR st0 eW1 0 (Except.ok 200)).errorOut =
      truncateStacks (enrichError eW1) :=
  (reportError_mutates_argument cfgR st0 eW1 0 (Except.ok 200) (by decide)).1

/-- Claim C10, counterexample to the claim as stated: the records `eC10c` and
`eC10d` have equal message, equal (absent) filename, lineNumber 0 versus
absent, and equal dedup keys as submitted — yet the second call 1000 ms after
the first is not suppressed: both calls POST, because with an absent filename
and a truthy stack the enrichment step overwrites filename and lineNumber from
the two different stacks before the key is computed. -/
theorem hashError_zero_line_cex :
    eC10c.message = eC10d.message ∧ eC10c.filename = eC10d.filename ∧
    eC10c.lineNumber = some 0 ∧ eC10d.lineNumber = none ∧
    hashError eC10c = hashError eC10d ∧
    ((reportError cfgR st0 eC10c 0 (Except.ok 200)).request).isSome = true ∧
    ((reportError cfgR (reportError cfgR st0 eC10c 0 (Except.ok 200)).state eC10d 1000
      (Except.ok 200)).request).isSome = true := by
  decide

/-- Claim C10 (amended): the dedup key maps line number 0 and an absent line
number to the same text, and an absent filename to the fixed placeholder
`unknown`; so for two records with equal message and equal present, non-empty
filename — which the stack-trace enrichment step therefore leaves unchanged —
where one has `lineNumber = 0` and the other has no line number, the dedup keys
are equal, and the second report within the window is suppressed although the
records differ. -/
theorem hashError_zero_line_placeholder (cfg : ReporterConfig) (st : DedupState)
    (e1 e2 : RuntimeError) (t1 t2 : Nat) (f1 f2 : Except Unit Nat) (fn : String)
    (hm : e1.message = e2.message) (hf1 : e1.filename = some fn)
    (hf2 : e2.filename = some fn) (hfn : ¬ fn = "")
    (hl1 : e1.lineNumber = some 0) (hl2 : e2.lineNumber = none)
    (h1 : ((reportError cfg st e1 t1 f1).request).isSome = true)
    (ht : t2 - t1 < DEDUPE_WINDOW_MS) :
    hashError e1 = hashError e2 ∧
    (reportError cfg (reportError cfg st e1 t1 f1).state e2 t2 f2).request = none ∧
    (∀ e : RuntimeError,
      hashError { e with filename := none } = hashError { e with filename := some "unknown" }) := by
  have hp := reportError_delivered_config cfg st e1 t1 f1 h1
  have hhash : hashError e1 = hashError e2 := by
    unfold hashError
    rw [hm, hf1, hf2, hl1, hl2]
    rfl
  have henr1 : enrichError e1 = e1 := by
    unfold enrichError
    rw [if_neg]
    rintro ⟨hft, -⟩
    rw [hf1] at hft
    simp [jsTruthyS] at hft
    exact hfn hft
  have henr2 : enrichError e2 = e2 := by
    unfold enrichError
    rw [if_neg]
    rintro ⟨hft, -⟩
    rw [hf2] at hft
    simp [jsTruthyS] at hft
    exact hfn hft
  have hst := reportError_state_of_delivered cfg st e1 t1 f1 h1
  refine ⟨hhash, ?_, ?_⟩
  · rw [hst]
    refine reportError_dropped cfg _ e2 t2 f2 hp ?_ ht
    rw [henr1, henr2]
    exact hhash.symm
  · intro e
    simp [hashError, jsOrStr]

theorem hashError_zero_line_placeholder_witness :
    hashError eC10a = hashError eC10b ∧
    (reportError cfgR (reportError cfgR st0 eC10a 0 (Except.ok 200)).state eC10b 1000
      (Except.ok 200)).request = none := by
  have h := hashError_zero_line_placeholder cfgR st0 eC10a eC10b 0 1000
    (Except.ok 200) (Except.ok 200) "f.tsx" rfl rfl rfl (by decide) rfl rfl
    (by decide) (by decide)
  exact ⟨h.1, h.2.1⟩

/-! ### Claims C3 and C4 -/

theorem scanLines_eq_none (ls : List String) (h : ∀ l ∈ ls, matchLine l = none) :
    scanLines ls = none := by
  induction ls with
  | nil => rfl
  | cons a ls ih =>
    have ha := h a (by simp)
    have ih2 := ih (fun l hl => h l (by simp [hl]))
    simp [scanLines, ha, ih2]

theorem scanLines_first (ls : List String) (i : Nat) (fn : String) (ln cn : Nat)
    (hlt : i < ls.length)
    (hj : ∀ j, j < i → matchLine (ls.getD j "") = none)
    (hi : matchLine (ls.getD i "") = some (fn, ln, cn)) :
    scanLines ls = some (fn, ln, cn) := by
  induction ls generalizing i with
  | nil => simp at hlt
  | cons a ls ih =>
    cases i with
    | zero =>
      simp only [List.getD_cons_zero] at hi
      simp [scanLines, hi]
    | succ i =>
      have ha := hj 0 (Nat.succ_pos i)
      simp only [List.getD_cons_zero] at ha
      have hrest := ih i (by simpa using hlt)
        (fun j hjlt => by simpa using hj (j + 1) (Nat.succ_lt_succ hjlt))
        (by simpa using hi)
      simp [scanLines, ha, hrest]

/-- Claim C3, counterexample to the claim as stated: for the stack text whose
first line is `ERROR`, the first line matches none of the three patterns, yet
`reportError` sets the location fields from the second line, because the source
scans every line of the stack, not only the first. -/
theorem parseStackTrace_first_line_cex :
    (splitLines "ERROR\nat Foo (bar.tsx:12:3)").getD 0 "" = "ERROR" ∧
    matchLine "ERROR" = none ∧
    (reportError cfgR st0 eC3 0 (Except.ok 200)).errorOut.filename = some "bar.tsx" ∧
    (reportError cfgR st0 eC3 0 (Except.ok 200)).errorOut.lineNumber = some 12 ∧
    (reportError cfgR st0 eC3 0 (Except.ok 200)).errorOut.columnNumber = some 3 := by
  decide

/-- Claim C3 (amended): when `filename` is falsy and `stack` is truthy,
`reportError` recovers `filename`/`lineNumber`/`columnNumber` by matching each
line of the stack text in order against the three patterns (within a line, the
three patterns are tried in order and the first match wins); the first line on
which some pattern matches provides the fields, and if no line matches any
pattern the fields remain unset; for the stack text `at Foo (bar.tsx:12:3)` the
recovered filename is `bar.tsx`, line 12, column 3. -/
theorem parseStackTrace_first_matching_line (cfg : ReporterConfig) (st : DedupState)
    (e : RuntimeError) (now : Nat) (f : Except Unit Nat) (s : String)
    (hp : ¬ cfg.projectId = "") (hf : jsTruthyS e.filename = false)
    (hs : e.stack = some s) (hs0 : ¬ s = "") :
    ((∀ l ∈ splitLines s, matchLine l = none) →
      (reportError cfg st e now f).errorOut.filename = none ∧
      (reportError cfg st e now f).errorOut.lineNumber = none ∧
      (reportError cfg st e now f).errorOut.columnNumber = none) ∧
    (∀ i fn ln cn, i < (splitLines s).length →
      (∀ j, j < i → matchLine ((splitLines s).getD j "") = none) →
      matchLine ((splitLines s).getD i "") = some (fn, ln, cn) →
      (reportError cfg st e now f).errorOut.filename = some fn ∧
      (reportError cfg st e now f).errorOut.lineNumber = some ln ∧
      (reportError cfg st e now f).errorOut.columnNumber = some cn) ∧
    parseStackTrace (some "at Foo (bar.tsx:12:3)") = ⟨some "bar.tsx", some 12, some 3⟩ := by
  obtain ⟨h1, h2, h3⟩ := reportError_errorOut_loc cfg st e now f hp
  have htr : jsTruthyS e.stack = true := by
    rw [hs]
    simp [jsTruthyS, hs0]
  have hcond : jsTruthyS e.filename = false ∧ jsTruthyS e.stack = true := ⟨hf, htr⟩
  have hen1 : (enrichError e).filename = (parseStackTrace e.stack).filename := by
    unfold enrichError
    rw [if_pos hcond]
  have hen2 : (enrichError e).lineNumber = (parseStackTrace e.stack).lineNumber := by
    unfold enrichError
    rw [if_pos hcond]
  have hen3 : (enrichError e).columnNumber = (parseStackTrace e.stack).columnNumber := by
    unfold enrichError
    rw [if_pos hcond]
  refine ⟨?_, ?_, by decide⟩
  · intro hall
    have hscan : scanLines (splitLines s) = none := scanLines_eq_none _ hall
    have hpt : parseStackTrace (some s) = ⟨none, none, none⟩ := by
      simp [parseStackTrace, hs0, hscan]
    rw [h1, h2, h3, hen1, hen2, hen3, hs, hpt]
    exact ⟨rfl, rfl, rfl⟩
  · intro i fn ln cn hlt hj hi
    have hscan := scanLines_first (splitLines s) i fn ln cn hlt hj hi
    have hpt : parseStackTrace (some s) = ⟨some fn, some ln, some cn⟩ := by
      simp [parseStackTrace, hs0, hscan]
    rw [h1, h2, h3, hen1, hen2, hen3, hs, hpt]
    exact ⟨rfl, rfl, rfl⟩

theorem parseStackTrace_first_matching_line_witness :
    (reportError cfgR st0 eC3w 0 (Except.ok 200)).errorOut.filename = some "bar.tsx" ∧
    (reportError cfgR st0 eC3w 0 (Except.ok 200)).errorOut.lineNumber = some 12 ∧
    (reportError cfgR st0 eC3w 0 (Except.ok 200)).errorOut.columnNumber = some 3 :=
  (parseStackTrace_first_matching_line cfgR st0 eC3w 0 (Except.ok 200)
    "at Foo (bar.tsx:12:3)" (by decide) rfl rfl (by decide)).2.1 0 "bar.tsx" 12 3
    (by decide) (fun j hj => absurd hj (Nat.not_lt_zero j)) (by decide)

/-- Claim C4: in every delivered payload, `stack` and `componentStack` are each
independently the truncation of the fields of the submitted record: a field of
at most 5000 characters is transmitted unchanged, and a longer field is cut to
exactly its first 5000 characters with the truncation marker appended. -/
theorem reportError_truncates_stacks (cfg : ReporterConfig) (st : DedupState)
    (e : RuntimeError) (now : Nat) (f : Except Unit Nat) (p : ErrorReportPayload)
    (hdeliv : (reportError cfg st e now f).request = some p) :
    p.error.stack = e.stack.map truncateField ∧
    p.error.componentStack = e.componentStack.map truncateField ∧
    (∀ s : String, s.data.length ≤ 5000 → truncateField s = s) ∧
    (∀ s : String, 5000 < s.data.length →
      truncateField s = String.mk (s.data.take 5000) ++ "\n... (truncated)" ∧
      (s.data.take 5000).length = 5000) := by
  have hp : ¬ cfg.projectId = "" := by
    intro hp0
    unfold reportError at hdeliv
    rw [if_pos hp0] at hdeliv
    simp at hdeliv
  by_cases hnd : hashError (enrichError e) = st.lastErrorHash ∧
      now - st.lastErrorTime < DEDUPE_WINDOW_MS
  · rw [reportError_dropped cfg st e now f hp hnd.1 hnd.2] at hdeliv
    simp at hdeliv
  · rw [reportError_delivers cfg st e now f hp hnd] at hdeliv
    simp only [Option.some.injEq] at hdeliv
    subst hdeliv
    refine ⟨?_, ?_, ?_, ?_⟩
    · show (enrichError e).stack.map truncateField = e.stack.map truncateField
      rw [(enrichError_stack e).1]
    · show (enrichError e).componentStack.map truncateField = e.componentStack.map truncateField
      rw [(enrichError_stack e).2]
    · intro s hle
      unfold truncateField
      rw [if_neg (by omega)]
    · intro s hgt
      refine ⟨?_, ?_⟩
      · unfold truncateField
        rw [if_pos (by omega)]
      · rw [List.length_take]
        omega

theorem reportError_truncates_stacks_witness :
    (⟨"proj", eW1, ⟨"ios", "18"⟩⟩ : ErrorReportPayload).error.stack =
      eW1.stack.map truncateField ∧
    (⟨"proj", eW1, ⟨"ios", "18"⟩⟩ : ErrorReportPayload).error.componentStack =
      eW1.componentStack.map truncateField := by
  have h := reportError_truncates_stacks cfgR st0 eW1 0 (Except.ok 200)
    ⟨"proj", eW1, ⟨"ios", "18"⟩⟩ (by decide)
  exact ⟨h.1, h.2.1⟩

/-! ### Claims C5 to C8 -/

/-- Claim C5: every AI client operation called with no project identifier
configured rejects with the configuration error and issues no network
request. -/
theorem aiClient_config_guard (cfg : AIConfig) (hp : cfg.projectId = "") :
    (∀ prompt sysp oracle, generateText cfg prompt sysp oracle =
      (Except.error "AI not configured - project ID missing", [])) ∧
    (∀ img prompt oracle, analyzeImage cfg img prompt oracle =
      (Except.error "AI not configured - project ID missing", [])) ∧
    (∀ u prompt oracle, analyzeImageUrl cfg u prompt oracle =
      (Except.error "AI not configured - project ID missing", [])) ∧
    (∀ oracle, checkAIQuota cfg oracle =
      (Except.error "AI not configured - project ID missing", [])) := by
  refine ⟨fun _ _ _ => ?_, fun _ _ _ => ?_, fun _ _ _ => ?_, fun _ => ?_⟩ <;>
    simp [generateText, analyzeImage, analyzeImageUrl, checkAIQuota, hp]

theorem aiClient_config_guard_witness :
    generateText cfgBadA "hi" none (fun _ => ⟨true, none, none⟩) =
      (Except.error "AI not configured - project ID missing", []) ∧
    analyzeImage cfgBadA "img" "q" (fun _ => ⟨true, none, none⟩) =
      (Except.error "AI not configured - project ID missing", []) ∧
    analyzeImageUrl cfgBadA "u" "q" (fun _ => ⟨true, none, none⟩) =
      (Except.error "AI not configured - project ID missing", []) ∧
    checkAIQuota cfgBadA (fun _ => ⟨true, none, none⟩) =
      (Except.error "AI not configured - project ID missing", []) := by
  have h := aiClient_config_guard cfgBadA rfl
  exact ⟨h.1 _ _ _, h.2.1 _ _ _, h.2.2.1 _ _ _, h.2.2.2 _⟩

theorem generateTextUnwrap_cases (resp : APIResponse GenerateTextData) :
    ((resp.success = false ∨ resp.data = none) →
      ((resp.error = none →
        generateTextUnwrap resp = Except.error "AI text generation failed") ∧
       (∀ c m, resp.error = some ⟨c, m⟩ → ¬ m = "" →
        generateTextUnwrap resp = Except.error m) ∧
       (∀ c, resp.error = some ⟨c, ""⟩ →
        generateTextUnwrap resp = Except.error "AI text generation failed"))) ∧
    (∀ d, resp.success = true → resp.data = some d →
      generateTextUnwrap resp = Except.ok ⟨d.text, d.remainingRequests⟩) := by
  obtain ⟨su, da, er⟩ := resp
  constructor
  · intro hbad
    refine ⟨fun he => ?_, fun c m he hm => ?_, fun c he => ?_⟩ <;>
      cases su <;> rcases da with _ | d <;> subst he <;>
      simp_all [generateTextUnwrap, jsOrStr]
  · intro d hsu hda
    cases su <;> rcases da with _ | d2 <;> simp_all [generateTextUnwrap]

theorem analyzeImageUnwrap_cases (resp : APIResponse AnalyzeImageData) :
    ((resp.success = false ∨ resp.data = none) →
      ((resp.error = none →
        analyzeImageUnwrap resp = Except.error "AI image analysis failed") ∧
       (∀ c m, resp.error = some ⟨c, m⟩ → ¬ m = "" →
        analyzeImageUnwrap resp = Except.error m) ∧
       (∀ c, resp.error = some ⟨c, ""⟩ →
        analyzeImageUnwrap resp = Except.error "AI image analysis failed"))) ∧
    (∀ d, resp.success = true → resp.data = some d →
      analyzeImageUnwrap resp = Except.ok ⟨d.analysis, d.remainingRequests⟩) := by
  obtain ⟨su, da, er⟩ := resp
  constructor
  · intro hbad
    refine ⟨fun he => ?_, fun c m he hm => ?_, fun c he => ?_⟩ <;>
      cases su <;> rcases da with _ | d <;> subst he <;>
      simp_all [analyzeImageUnwrap, jsOrStr]
  · intro d hsu hda
    cases su <;> rcases da with _ | d2 <;> simp_all [analyzeImageUnwrap]

theorem checkAIQuotaUnwrap_cases (resp : APIResponse QuotaData) :
    ((resp.success = false ∨ resp.data = none) →
      ((resp.error = none →
        checkAIQuotaUnwrap resp = Except.error "Failed to check AI quota") ∧
       (∀ c m, resp.error = some ⟨c, m⟩ → ¬ m = "" →
        checkAIQuotaUnwrap resp = Except.error m) ∧
       (∀ c, resp.error = some ⟨c, ""⟩ →
        checkAIQuotaUnwrap resp = Except.error "Failed to check AI quota"))) ∧
    (∀ d, resp.success = true → resp.data = some d →
      checkAIQuotaUnwrap resp = Except.ok ⟨d.remainingRequests, d.maxRequests, d.periodEnd⟩) := by
  obtain ⟨su, da, er⟩ := resp
  constructor
  · intro hbad
    refine ⟨fun he => ?_, fun c m he hm => ?_, fun c he => ?_⟩ <;>
      cases su <;> rcases da with _ | d <;> subst he <;>
      simp_all [checkAIQuotaUnwrap, jsOrStr]
  · intro d hsu hda
    cases su <;> rcases da with _ | d2 <;> simp_all [checkAIQuotaUnwrap]

/-- Claim C6, counterexample to the claim as stated: the server supplies the
(empty) error message `""` in the envelope, yet `generateText` rejects with the
fixed default message, not with the server-supplied one, because the JavaScript
`||` default also replaces a present-but-empty message. -/
theorem envelope_empty_message_cex :
    (generateText cfgA "p" none (fun _ => ⟨false, none, some ⟨"ERR", ""⟩⟩)).1 =
      Except.error "AI text generation failed" ∧
    ¬ (generateText cfgA "p" none (fun _ => ⟨false, none, some ⟨"ERR", ""⟩⟩)).1 =
      Except.error "" := by
  constructor
  · rfl
  · intro h
    have h2 : (Except.error "AI text generation failed" : Except String GenerateTextResult) =
        Except.error "" := h
    exact absurd (Except.error.inj h2) (by decide)

/-- Claim C6 (amended): for every operation and response envelope, an envelope
with `success = false` or missing `data` makes the operation reject with the
server-supplied error message when that message is present and non-empty, and
with the fixed per-operation default message otherwise (message absent or
empty); an envelope with `success = true` and `data` present resolves with the
fields unwrapped from `data`. -/
theorem envelope_unwrap (cfg : AIConfig) (hp : ¬ cfg.projectId = "") :
    (∀ prompt sysp (resp : APIResponse GenerateTextData),
      ((resp.success = false ∨ resp.data = none) →
        ((resp.error = none → (generateText cfg prompt sysp (fun _ => resp)).1 =
          Except.error "AI text generation failed") ∧
         (∀ c m, resp.error = some ⟨c, m⟩ → ¬ m = "" →
          (generateText cfg prompt sysp (fun _ => resp)).1 = Except.error m) ∧
         (∀ c, resp.error = some ⟨c, ""⟩ → (generateText cfg prompt sysp (fun _ => resp)).1 =
          Except.error "AI text generation failed"))) ∧
      (∀ d, resp.success = true → resp.data = some d →
        (generateText cfg prompt sysp (fun _ => resp)).1 =
          Except.ok ⟨d.text, d.remainingRequests⟩)) ∧
    (∀ img prompt (resp : APIResponse AnalyzeImageData),
      ((resp.success = false ∨ resp.data = none) →
        ((resp.error = none → (analyzeImage cfg img prompt (fun _ => resp)).1 =
          Except.error "AI image analysis failed") ∧
         (∀ c m, resp.error = some ⟨c, m⟩ → ¬ m = "" →
          (analyzeImage cfg img prompt (fun _ => resp)).1 = Except.error m) ∧
         (∀ c, resp.error = some ⟨c, ""⟩ → (analyzeImage cfg img prompt (fun _ => resp)).1 =
          Except.error "AI image analysis failed"))) ∧
      (∀ d, resp.success = true → resp.data = some d →
        (analyzeImage cfg img prompt (fun _ => resp)).1 =
          Except.ok ⟨d.analysis, d.remainingRequests⟩)) ∧
    (∀ u prompt (resp : APIResponse AnalyzeImageData),
      ((resp.success = false ∨ resp.data = none) →
        ((resp.error = none → (analyzeImageUrl cfg u prompt (fun _ => resp)).1 =
          Except.error "AI image analysis failed") ∧
         (∀ c m, resp.error = some ⟨c, m⟩ → ¬ m = "" →
          (analyzeImageUrl cfg u prompt (fun _ => resp)).1 = Except.error m) ∧
         (∀ c, resp.error = some ⟨c, ""⟩ → (analyzeImageUrl cfg u prompt (fun _ => resp)).1 =
          Except.error "AI image analysis failed"))) ∧
      (∀ d, resp.success = true → resp.data = some d →
        (analyzeImageUrl cfg u prompt (fun _ => resp)).1 =
          Except.ok ⟨d.analysis, d.remainingRequests⟩)) ∧
    (∀ (resp : APIResponse QuotaData),
      ((resp.success = false ∨ resp.data = none) →
        ((resp.error = none → (checkAIQuota cfg (fun _ => resp)).1 =
          Except.error "Failed to check AI quota") ∧
         (∀ c m, resp.error = some ⟨c, m⟩ → ¬ m = "" →
          (checkAIQuota cfg (fun _ => resp)).1 = Except.error m) ∧
         (∀ c, resp.error = some ⟨c, ""⟩ → (checkAIQuota cfg (fun _ => resp)).1 =
          Except.error "Failed to check AI quota"))) ∧
      (∀ d, resp.success = true → resp.data = some d →
        (checkAIQuota cfg (fun _ => resp)).1 =
          Except.ok ⟨d.remainingRequests, d.maxRequests, d.periodEnd⟩)) := by
  refine ⟨fun prompt sysp resp => ?_, fun img prompt resp => ?_,
    fun u prompt resp => ?_, fun resp => ?_⟩
  · rw [show (generateText cfg prompt sysp (fun _ => resp)).1 = generateTextUnwrap resp from
      by simp [generateText, hp]]
    exact generateTextUnwrap_cases resp
  · rw [show (analyzeImage cfg img prompt (fun _ => resp)).1 = analyzeImageUnwrap resp from
      by simp [analyzeImage, hp]]
    exact analyzeImageUnwrap_cases resp
  · rw [show (analyzeImageUrl cfg u prompt (fun _ => resp)).1 = analyzeImageUnwrap resp from
      by simp [analyzeImageUrl, hp]]
    exact analyzeImageUnwrap_cases resp
  · rw [show (checkAIQuota cfg (fun _ => resp)).1 = checkAIQuotaUnwrap resp from
      by simp [checkAIQuota, hp]]
    exact checkAIQuotaUnwrap_cases resp

theorem envelope_unwrap_witness :
    (generateText cfgA "p" none (fun _ => ⟨true, some ⟨"hi", 4⟩, none⟩)).1 =
      Except.ok ⟨"hi", 4⟩ :=
  ((envelope_unwrap cfgA (by decide)).1 "p" none ⟨true, some ⟨"hi", 4⟩, none⟩).2
    ⟨"hi", 4⟩ rfl rfl

theorem splitChar_ne_nil (sep : Char) (l : List Char) : ¬ splitChar sep l = [] := by
  induction l with
  | nil => simp [splitChar]
  | cons c cs ih =>
    rcases h2 : splitChar sep cs with _ | ⟨t, ts⟩
    · exact absurd h2 ih
    · simp only [splitChar, h2]
      split_ifs <;> simp

theorem splitChar_sepFree (sep : Char) (l : List Char) (h : sep ∉ l) :
    splitChar sep l = [l] := by
  induction l with
  | nil => rfl
  | cons c cs ih =>
    have hc : ¬ c = sep := fun hh => h (by rw [hh]; exact List.mem_cons_self sep cs)
    have hcs := ih (fun hh => h (List.mem_cons_of_mem c hh))
    simp [splitChar, hcs, hc]

theorem splitChar_head (sep : Char) (l : List Char) :
    ∃ ts, splitChar sep l = l.takeWhile (fun c => c != sep) :: ts := by
  induction l with
  | nil => exact ⟨[], rfl⟩
  | cons c cs ih =>
    obtain ⟨ts, hts⟩ := ih
    by_cases hc : c = sep
    · refine ⟨cs.takeWhile (fun c => c != sep) :: ts, ?_⟩
      simp [splitChar, hts, hc]
    · refine ⟨ts, ?_⟩
      simp [splitChar, hts, hc]

theorem splitChar_first (sep : Char) (pre post : List Char) (h : sep ∉ pre) :
    splitChar sep (pre ++ sep :: post) = pre :: splitChar sep post := by
  induction pre with
  | nil =>
    rcases h2 : splitChar sep post with _ | ⟨t, ts⟩
    · exact absurd h2 (splitChar_ne_nil sep post)
    · simp [splitChar, h2]
  | cons c pre2 ih =>
    have hc : ¬ c = sep := fun hh => h (by rw [hh]; exact List.mem_cons_self sep pre2)
    have hpre := ih (fun hh => h (List.mem_cons_of_mem c hh))
    simp [splitChar, hpre, hc]

/-- Claim C7, counterexample to the claim as stated: the input `AA,BB` carries
no data-URL prefix, yet it is not sent unchanged: the code strips on comma
presence, not on a data-URL prefix, so only the segment after the comma is
sent. -/
theorem analyzeImage_comma_cex :
    (analyzeImage cfgA "AA,BB" "q" (fun _ => ⟨true, some ⟨"ok", 5⟩, none⟩)).2.map
      (fun r => r.imageBase64) = ["BB"] ∧
    ¬ "BB" = "AA,BB" ∧
    List.isPrefixOf "data:".data "AA,BB".data = false := by
  decide

/-- Claim C7 (amended): `analyzeImage` sends the input image string unchanged
when it contains no comma; when it contains a comma, it sends the segment
between the first comma and the next comma or the end of the string (for a
well-formed data URL, exactly the bare base64 data); in particular the input
`data:image/png;base64,AAAA` is sent as `AAAA`. -/
theorem analyzeImage_clean_base64 (cfg : AIConfig) (img prompt : String)
    (oracle : VisionRequest → APIResponse AnalyzeImageData)
    (hp : ¬ cfg.projectId = "") :
    (',' ∉ img.data →
      (analyzeImage cfg img prompt oracle).2.map (fun r => r.imageBase64) = [img]) ∧
    (∀ pre post, ',' ∉ pre → img.data = pre ++ ',' :: post →
      (analyzeImage cfg img prompt oracle).2.map (fun r => r.imageBase64) =
        [String.mk (post.takeWhile (fun c => c != ','))]) ∧
    (analyzeImage cfg "data:image/png;base64,AAAA" prompt oracle).2.map
      (fun r => r.imageBase64) = ["AAAA"] := by
  have hreq : ∀ im : String,
      (analyzeImage cfg im prompt oracle).2.map (fun r => r.imageBase64) =
        [cleanBase64 im] := by
    intro im
    simp [analyzeImage, hp]
  refine ⟨?_, ?_, ?_⟩
  · intro hnc
    rw [hreq]
    simp [cleanBase64, hnc]
  · intro pre post hpre heq
    rw [hreq]
    have hmem : ',' ∈ img.data := by
      rw [heq]
      exact List.mem_append_right pre (List.mem_cons_self ',' post)
    obtain ⟨ts, hts⟩ := splitChar_head ',' post
    have hclean : cleanBase64 img = String.mk (post.takeWhile (fun c => c != ',')) := by
      unfold cleanBase64
      rw [if_pos hmem, heq, splitChar_first ',' pre post hpre, hts]
      rfl
    rw [hclean]
  · rw [hreq]
    decide

theorem analyzeImage_clean_base64_witness :
    (analyzeImage cfgA "data:image/png;base64,AAAA" "q"
      (fun _ => ⟨true, some ⟨"ok", 5⟩, none⟩)).2.map (fun r => r.imageBase64) =
      ["AAAA"] :=
  (analyzeImage_clean_base64 cfgA "data:image/png;base64,AAAA" "q"
    (fun _ => ⟨true, some ⟨"ok", 5⟩, none⟩) (by decide)).2.2

theorem generateImageUnwrap_data_url (resp : APIResponse GenImageData)
    (res : GenerateImageResult) (h : generateImageUnwrap resp = Except.ok res) :
    ∃ mt rest, res.imageBase64 = "data:" ++ mt ++ ";base64," ++ rest := by
  obtain ⟨su, da, er⟩ := resp
  cases su <;> rcases da with _ | d <;> simp [generateImageUnwrap] at h
  exact ⟨d.mimeType, d.imageBase64, by rw [← h]⟩

/-- Claim C8 (spec-modelled): `generateImage` called with no options issues its
request with aspect ratio `1:1` and resolution `1K`, and every successful
result has `imageBase64` of the data-URL form `data:{mimeType};base64,...`. -/
theorem generateImage_defaults (cfg : AIConfig) (prompt : String)
    (oracle : GenImageRequest → APIResponse GenImageData)
    (hp : ¬ cfg.projectId = "") :
    (generateImage cfg prompt ⟨none, none⟩ oracle).2.map (fun r => r.aspect) = ["1:1"] ∧
    (generateImage cfg prompt ⟨none, none⟩ oracle).2.map (fun r => r.resolution) = ["1K"] ∧
    (∀ res, (generateImage cfg prompt ⟨none, none⟩ oracle).1 = Except.ok res →
      ∃ mt rest, res.imageBase64 = "data:" ++ mt ++ ";base64," ++ rest) := by
  refine ⟨by simp [generateImage, hp], by simp [generateImage, hp], ?_⟩
  intro res h
  rw [show (generateImage cfg prompt ⟨none, none⟩ oracle).1 =
      generateImageUnwrap (oracle ⟨cfg.apiUrl ++ "/api/ai/generate-image", cfg.projectId,
        prompt, "1:1", "1K"⟩) from by simp [generateImage, hp]] at h
  exact generateImageUnwrap_data_url _ res h

theorem generateImage_defaults_witness :
    (generateImage cfgA "cat" ⟨none, none⟩
      (fun _ => ⟨true, some ⟨"RAW", "image/png", 3⟩, none⟩)).2.map
      (fun r => r.aspect) = ["1:1"] :=
  (generateImage_defaults cfgA "cat"
    (fun _ => ⟨true, some ⟨"RAW", "image/png", 3⟩, none⟩) (by decide)).1
